import Mathlib

/-
Formal model of the timescaler library (src/timescaler.c), a LD_PRELOAD
shim that rescales the time perceived by a process.  C doubles and floats
are modelled as exact rationals; C integral types (int, long, time_t,
clock_t) are modelled as Int, with the C float-to-integer conversion
(truncation toward zero) made explicit through cTrunc.  Each hook is
embedded as a pure function from the call's inputs and the real libc
function's behaviour to the observable outcome: the arguments handed to
the real function, the value returned to the caller, and the contents of
the caller-visible output buffers.
-/

namespace Timescaler

/-- Linux value of the CLOCK_REALTIME clock id. -/
def CLOCK_REALTIME : Int := 0

/-- Linux value of the CLOCK_MONOTONIC clock id. -/
def CLOCK_MONOTONIC : Int := 1

/-- Linux value of the TIMER_ABSTIME flag for clock_nanosleep. -/
def TIMER_ABSTIME : Int := 1

/-- Value of the EINVAL errno constant on Linux. -/
def EINVAL : Int := 22

/-- Linux value of the FUTEX_WAIT operation code. -/
def FUTEX_WAIT : Int := 0

/-- C struct timespec: seconds and nanoseconds, both integral. -/
structure Timespec where
  tv_sec : Int
  tv_nsec : Int
deriving DecidableEq, Repr

/-- C struct timeval: seconds and microseconds, both integral. -/
structure Timeval where
  tv_sec : Int
  tv_usec : Int
deriving DecidableEq, Repr

/-- C conversion from a floating value to an integral type: truncation
toward zero. -/
def cTrunc (q : ℚ) : Int :=
  if 0 ≤ q then ⌊q⌋ else ⌈q⌉

/-- Embedding of timespec2double (timescaler.c lines 316-319):
the seconds field plus the nanoseconds divided by 1e9. -/
def timespec2double (t : Timespec) : ℚ :=
  (t.tv_sec : ℚ) + (t.tv_nsec : ℚ) / 1000000000

/-- Embedding of double2timespec (timescaler.c lines 304-308):
tv_sec is floor(time), tv_nsec is the fractional part times 1e9,
truncated by the assignment to the integral tv_nsec field. -/
def double2timespec (time : ℚ) : Timespec :=
  ⟨⌊time⌋, cTrunc ((time - (⌊time⌋ : ℚ)) * 1000000000)⟩

/-- Embedding of timeval2double (timescaler.c lines 339-342). -/
def timeval2double (t : Timeval) : ℚ :=
  (t.tv_sec : ℚ) + (t.tv_usec : ℚ) / 1000000

/-- Embedding of double2timeval (timescaler.c lines 327-331). -/
def double2timeval (time : ℚ) : Timeval :=
  ⟨⌊time⌋, cTrunc ((time - (⌊time⌋ : ℚ)) * 1000000)⟩

/-- Set of enabled hooks (timescaler.c lines 81-100): one flag per
interceptable libc function. -/
structure TsHooks where
  alarm : Bool
  clock_gettime : Bool
  clock_nanosleep : Bool
  epoll_pwait : Bool
  epoll_wait : Bool
  futex : Bool
  getitimer : Bool
  gettimeofday : Bool
  nanosleep : Bool
  pselect : Bool
  poll : Bool
  select : Bool
  setitimer : Bool
  sleep : Bool
  time : Bool
  times : Bool
  ualarm : Bool
  usleep : Bool
deriving DecidableEq, Repr

/-- Every hook enabled: the memset to all-ones bits of timescaler.c
line 253. -/
def allHooks : TsHooks :=
  ⟨true, true, true, true, true, true, true, true, true, true, true,
   true, true, true, true, true, true, true⟩

/-- Every hook disabled: the memset to zero of timescaler.c lines 211
and 217. -/
def noHooks : TsHooks :=
  ⟨false, false, false, false, false, false, false, false, false, false,
   false, false, false, false, false, false, false, false⟩

/-- One step of the TIMESCALER_HOOKS token loop (timescaler.c lines
222-247): a token equal to a catalog name enables that hook, any other
token is logged and ignored. -/
def setHook (h : TsHooks) (tok : String) : TsHooks :=
  if tok = "alarm" then { h with alarm := true }
  else if tok = "clock_gettime" then { h with clock_gettime := true }
  else if tok = "clock_nanosleep" then { h with clock_nanosleep := true }
  else if tok = "epoll_pwait" then { h with epoll_pwait := true }
  else if tok = "epoll_wait" then { h with epoll_wait := true }
  else if tok = "futex" then { h with futex := true }
  else if tok = "getitimer" then { h with getitimer := true }
  else if tok = "gettimeofday" then { h with gettimeofday := true }
  else if tok = "nanosleep" then { h with nanosleep := true }
  else if tok = "pselect" then { h with pselect := true }
  else if tok = "poll" then { h with poll := true }
  else if tok = "select" then { h with select := true }
  else if tok = "setitimer" then { h with setitimer := true }
  else if tok = "sleep" then { h with sleep := true }
  else if tok = "time" then { h with time := true }
  else if tok = "times" then { h with times := true }
  else if tok = "ualarm" then { h with ualarm := true }
  else if tok = "usleep" then { h with usleep := true }
  else h

/-- Global configuration ts_config (timescaler.c lines 67-131): the
verbosity, the scale, the per-clock anchors captured at bootstrap and
the set of enabled hooks. -/
structure TsConfig where
  initialized : Bool
  verbosity : Int
  scale : ℚ
  initial_time : Int
  initial_clock_monotonic : Int
  initial_clock_realtime : Int
  initial_times : Int
  hooks : TsHooks
deriving DecidableEq, Repr

/-- Static initializer of ts_config (timescaler.c lines 129-131):
initialized = 0, verbosity = 1, scale = 1.0, everything else
zero-initialized. -/
def ts_config_static : TsConfig :=
  { initialized := false, verbosity := 1, scale := 1,
    initial_time := 0, initial_clock_monotonic := 0,
    initial_clock_realtime := 0, initial_times := 0, hooks := noHooks }

/-- Embedding of timescaler_init (timescaler.c lines 185-296).
envVerbosity is the atoi of TIMESCALER_VERBOSITY when that variable is
present; envScale is the atof of TIMESCALER_SCALE when present (atof
returns 0.0 on an unparsable string); envHooks is the comma-token list
of TIMESCALER_HOOKS when present (the empty string gives the empty
list).  The four Int arguments are the readings the real functions
return during anchor capture (lines 279-290). -/
def timescaler_init (envVerbosity : Option Int) (envScale : Option ℚ)
    (envHooks : Option (List String))
    (realTime realRealtime realMonotonic realTimes : Int) : TsConfig :=
  let verbosity := match envVerbosity with
    | none => ts_config_static.verbosity
    | some v => v
  let scale := match envScale with
    | none => ts_config_static.scale
    | some s => s
  let hooks := match envHooks with
    | none => allHooks
    | some toks => toks.foldl setHook noHooks
  { initialized := true, verbosity := verbosity, scale := scale,
    initial_time := realTime, initial_clock_realtime := realRealtime,
    initial_clock_monotonic := realMonotonic, initial_times := realTimes,
    hooks := hooks }

/-- Emission condition of timescaler_log (timescaler.c line 167): a
message at the given level is printed exactly when level is at most the
configured verbosity. -/
def timescaler_log_emits (verbosity level : Int) : Bool :=
  decide (level ≤ verbosity)

/-- The instantaneous-read transform used by the enabled paths of
clock_gettime (timescaler.c lines 383 and 385), gettimeofday (line 524)
and time (line 699): anchor plus the elapsed real time divided by the
scale. -/
def virtualRead (anchor : Int) (scale : ℚ) (now : ℚ) : ℚ :=
  (anchor : ℚ) + (now - (anchor : ℚ)) / scale

/-- Embedding of the clock_gettime hook (timescaler.c lines 363-390).
tpIn is the content of the caller's timespec buffer before the call;
real maps a clock id to the return value and buffer content produced by
the real clock_gettime.  The result is the pair of the value returned
to the caller and the buffer content the caller observes. -/
def clock_gettime (cfg : TsConfig) (clk_id : Int) (tpIn : Timespec)
    (real : Int → Int × Timespec) : Int × Timespec :=
  if cfg.hooks.clock_gettime = false then real clk_id
  else if clk_id ≠ CLOCK_REALTIME ∧ clk_id ≠ CLOCK_MONOTONIC then
    (EINVAL, tpIn)
  else
    let r := real clk_id
    let now := timespec2double r.2
    let t := if clk_id = CLOCK_REALTIME then
               virtualRead cfg.initial_clock_realtime cfg.scale now
             else
               virtualRead cfg.initial_clock_monotonic cfg.scale now
    (r.1, double2timespec t)

/-- Embedding of the gettimeofday hook (timescaler.c lines 515-529).
realRet and realTv are the return value and buffer content produced by
the real gettimeofday. -/
def gettimeofday (cfg : TsConfig) (realRet : Int) (realTv : Timeval) :
    Int × Timeval :=
  if cfg.hooks.gettimeofday = false then (realRet, realTv)
  else
    let now := timeval2double realTv
    (realRet, double2timeval (virtualRead cfg.initial_time cfg.scale now))

/-- Embedding of the time hook (timescaler.c lines 691-704).  realNow is
the value returned by the real time function; the double arithmetic of
line 699 is truncated back to time_t on assignment. -/
def time (cfg : TsConfig) (realNow : Int) : Int :=
  if cfg.hooks.time = false then realNow
  else cTrunc (virtualRead cfg.initial_time cfg.scale (realNow : ℚ))

/-- Observable outcome of one nanosleep-family call: whether the real
function was invoked, the request handed to it, the value returned to
the caller, and the content of the caller's remaining-time buffer after
the call (none when the caller passed a null pointer, or when the
operation returned without the real function writing it). -/
structure SleepCall where
  realCalled : Bool
  realReq : Option Timespec
  ret : Int
  remOut : Option Timespec
deriving DecidableEq, Repr

/-- Embedding of the nanosleep hook (timescaler.c lines 535-555).
remPresent tells whether the caller passed a non-null rem pointer; real
maps the request the real nanosleep receives to its return value and
the remaining time it writes. -/
def nanosleep (cfg : TsConfig) (req : Timespec) (remPresent : Bool)
    (real : Timespec → Int × Timespec) : SleepCall :=
  if cfg.hooks.nanosleep = false then
    let r := real req
    ⟨true, some req, r.1, if remPresent then some r.2 else none⟩
  else
    let req_scale := double2timespec (timespec2double req * cfg.scale)
    let r := real req_scale
    if r.1 ≠ 0 ∧ remPresent then
      ⟨true, some req_scale, r.1,
       some (double2timespec (timespec2double r.2 / cfg.scale))⟩
    else
      ⟨true, some req_scale, r.1, if remPresent then some r.2 else none⟩

/-- Embedding of the clock_nanosleep hook (timescaler.c lines 396-431).
realNow is what the real clock_gettime returns for the given clock
during the absolute-to-relative conversion; realRet is the real
clock_nanosleep return value and realRem the remaining time it writes
into the untranslated remain pointer. -/
def clock_nanosleep (cfg : TsConfig) (clk_id flags : Int) (req : Timespec)
    (remPresent : Bool) (realNow : Timespec) (realRet : Int)
    (realRem : Timespec) : SleepCall :=
  if cfg.hooks.clock_nanosleep = false then
    ⟨true, some req, realRet, if remPresent then some realRem else none⟩
  else if clk_id ≠ CLOCK_REALTIME ∧ clk_id ≠ CLOCK_MONOTONIC then
    ⟨false, none, EINVAL, none⟩
  else
    let t := timespec2double req
    if flags = TIMER_ABSTIME then
      let t2 := t - timespec2double realNow
      if t2 ≤ 0 then ⟨false, none, 0, none⟩
      else ⟨true, some (double2timespec t2), realRet,
            if remPresent then some realRem else none⟩
    else ⟨true, some (double2timespec t), realRet,
          if remPresent then some realRem else none⟩

/-- Embedding of the timeout handling of the epoll_wait hook
(timescaler.c lines 456-468): the value of the timeout argument the
real epoll_wait receives.  The multiplication by the float scale is
truncated back to int. -/
def epoll_wait (cfg : TsConfig) (timeout : Int) : Int :=
  if cfg.hooks.epoll_wait = false ∨ timeout ≤ 0 then timeout
  else cTrunc ((timeout : ℚ) * cfg.scale)

/-- Embedding of the timeout handling of the futex hook (timescaler.c
lines 474-489): the timeout the real futex receives, as an optional
pointer value.  The outer none marks the undefined behaviour of line
485, where timespec2double dereferences the timeout pointer without a
null check. -/
def futex (cfg : TsConfig) (op : Int) (timeout : Option Timespec) :
    Option (Option Timespec) :=
  if cfg.hooks.futex = false ∨ op ≠ FUTEX_WAIT then some timeout
  else
    match timeout with
    | none => none
    | some t =>
        some (some (double2timespec (timespec2double t * cfg.scale)))

/-- C struct tms: the four CPU-time fields rescaled by the times hook. -/
structure Tms where
  tms_utime : Int
  tms_stime : Int
  tms_cutime : Int
  tms_cstime : Int
deriving DecidableEq, Repr

/-- Embedding of the times hook (timescaler.c lines 711-728).  realRet
and realBuf are the return value and buffer content produced by the
real times; the division by the float scale is truncated back to
clock_t on assignment.  The buffer fields are rescaled before the
return value is checked against (clock_t)-1. -/
def times (cfg : TsConfig) (realRet : Int) (realBuf : Tms) : Int × Tms :=
  if cfg.hooks.times = false then (realRet, realBuf)
  else
    let buf : Tms :=
      ⟨cTrunc ((realBuf.tms_utime : ℚ) / cfg.scale),
       cTrunc ((realBuf.tms_stime : ℚ) / cfg.scale),
       cTrunc ((realBuf.tms_cutime : ℚ) / cfg.scale),
       cTrunc ((realBuf.tms_cstime : ℚ) / cfg.scale)⟩
    if realRet = -1 then (realRet, buf)
    else
      (cTrunc ((cfg.initial_times : ℚ) +
        ((realRet : ℚ) - (cfg.initial_times : ℚ)) / cfg.scale), buf)

/-- C struct itimerval: recurrence interval and initial value. -/
structure Itimerval where
  it_interval : Timeval
  it_value : Timeval
deriving DecidableEq, Repr

/-- Embedding of the getitimer hook (timescaler.c lines 494-509).
realRet and realCurr are the return value and buffer content produced
by the real getitimer; both timer fields are divided by the scale
unconditionally, whatever the return value. -/
def getitimer (cfg : TsConfig) (realRet : Int) (realCurr : Itimerval) :
    Int × Itimerval :=
  if cfg.hooks.getitimer = false then (realRet, realCurr)
  else
    let value := timeval2double realCurr.it_value / cfg.scale
    let interval := timeval2double realCurr.it_interval / cfg.scale
    (realRet, ⟨double2timeval interval, double2timeval value⟩)

/-- Configuration with every hook enabled, zero anchors and the given
scale, as produced by a bootstrap with only TIMESCALER_SCALE set. -/
def cfgAll (s : ℚ) : TsConfig :=
  { initialized := true, verbosity := 1, scale := s,
    initial_time := 0, initial_clock_monotonic := 0,
    initial_clock_realtime := 0, initial_times := 0, hooks := allHooks }

/-- Configuration with the given scale, anchors and hook set, as left in
ts_config by a completed bootstrap. -/
def mkConfig (s : ℚ) (aT aR aM aK : Int) (hk : TsHooks) : TsConfig :=
  { initialized := true, verbosity := 1, scale := s, initial_time := aT,
    initial_clock_monotonic := aM, initial_clock_realtime := aR,
    initial_times := aK, hooks := hk }

/-- Truncation toward zero is the identity on integers. -/
theorem cTrunc_intCast (n : Int) : cTrunc (n : ℚ) = n := by
  unfold cTrunc
  split
  · exact Int.floor_intCast n
  · exact Int.ceil_intCast n

/-- Floor of an integer plus a value in the interval from 0 to 1 is that
integer. -/
theorem floor_add_small (s : Int) (x : ℚ) (h1 : 0 ≤ x) (h2 : x < 1) :
    ⌊(s : ℚ) + x⌋ = s := by
  rw [Int.floor_eq_iff]
  constructor
  · linarith
  · linarith

/-- Round-tripping a rational through double2timespec exposes exactly the
floor of the value at nanosecond resolution. -/
theorem timespec_resolution (x : ℚ) :
    timespec2double (double2timespec x) =
      ((⌊x * 1000000000⌋ : Int) : ℚ) / 1000000000 := by
  have hfr : (0:ℚ) ≤ (x - (⌊x⌋:ℚ)) * 1000000000 :=
    mul_nonneg (by linarith [Int.floor_le x]) (by norm_num)
  have h2 : (x - (⌊x⌋:ℚ)) * 1000000000 =
      x * 1000000000 - ((⌊x⌋ * 1000000000 : Int) : ℚ) := by
    push_cast
    ring
  simp only [timespec2double, double2timespec, cTrunc]
  rw [if_pos hfr, h2, Int.floor_sub_int]
  push_cast
  field_simp

/-- Claim C1: for every enabled instantaneous-read operation
(clock_gettime on CLOCK_REALTIME or CLOCK_MONOTONIC, gettimeofday,
time) and every reading r produced by the real function, the value
exposed to the caller is anchor + (r - anchor) / scale, rendered at the
output representation's own resolution, where the anchor is the
bootstrap reference of that operation's clock source; in particular
with scale 2 and anchor 1000, a real reading of 1010 yields 1005. -/
theorem c1_instantaneous_read (hk : TsHooks) (s : ℚ) (aT aR aM aK ret n : Int)
    (r tpIn : Timespec) (v : Timeval) :
    clock_gettime (mkConfig s aT aR aM aK { hk with clock_gettime := true })
        CLOCK_REALTIME tpIn (fun _ => (ret, r)) =
      (ret, double2timespec (virtualRead aR s (timespec2double r))) ∧
    clock_gettime (mkConfig s aT aR aM aK { hk with clock_gettime := true })
        CLOCK_MONOTONIC tpIn (fun _ => (ret, r)) =
      (ret, double2timespec (virtualRead aM s (timespec2double r))) ∧
    gettimeofday (mkConfig s aT aR aM aK { hk with gettimeofday := true }) ret v =
      (ret, double2timeval (virtualRead aT s (timeval2double v))) ∧
    time (mkConfig s aT aR aM aK { hk with time := true }) n =
      cTrunc (virtualRead aT s (n : ℚ)) ∧
    time (mkConfig 2 1000 aR aM aK { hk with time := true }) 1010 = 1005 ∧
    clock_gettime (mkConfig 2 aT 1000 aM aK { hk with clock_gettime := true })
        CLOCK_REALTIME tpIn (fun _ => (0, ⟨1010, 0⟩)) = (0, ⟨1005, 0⟩) := by
  refine ⟨?_, ?_, ?_, ?_, ?_, ?_⟩
  · simp [clock_gettime, mkConfig, CLOCK_REALTIME, CLOCK_MONOTONIC]
  · simp [clock_gettime, mkConfig, CLOCK_REALTIME, CLOCK_MONOTONIC]
  · simp [gettimeofday, mkConfig]
  · simp [time, mkConfig]
  · norm_num [time, mkConfig, virtualRead, cTrunc]
  · norm_num [clock_gettime, mkConfig, CLOCK_REALTIME, CLOCK_MONOTONIC, virtualRead,
      timespec2double, double2timespec, cTrunc]

/-- Claim C2: evaluation at the failing input.  Under scale 1/2 a
relative clock_nanosleep for 4 virtual seconds hands the real function
4 seconds, not the claimed 4 times 1/2 = 2 seconds, and returns the
remaining time the real function wrote without dividing it by the
scale; the nanosleep hook, by contrast, behaves as the claim states
(request scaled to 2 seconds, remaining time divided by the scale). -/
theorem c2_relative_wait_scaling_bug :
    clock_nanosleep (cfgAll (1/2)) CLOCK_REALTIME 0 ⟨4,0⟩ true ⟨0,0⟩ (-1) ⟨7,0⟩ =
      ⟨true, some ⟨4,0⟩, -1, some ⟨7,0⟩⟩ ∧
    (nanosleep (cfgAll (1/2)) ⟨4,0⟩ true (fun _ => (-1, ⟨3,0⟩))).realReq = some ⟨2,0⟩ ∧
    (nanosleep (cfgAll (1/2)) ⟨4,0⟩ true (fun _ => (-1, ⟨3,0⟩))).remOut = some ⟨6,0⟩ := by
  refine ⟨?_, ?_, ?_⟩ <;>
    norm_num [clock_nanosleep, nanosleep, cfgAll, allHooks, CLOCK_REALTIME, CLOCK_MONOTONIC,
      TIMER_ABSTIME, timespec2double, double2timespec, cTrunc]

/-- Claim C3: evaluation at the failing inputs.  An enabled futex
FUTEX_WAIT with a null timeout pointer dereferences the null pointer
(the outer none: undefined behaviour) instead of passing the absent
timeout through, and an enabled nanosleep with the negative request
of -4 seconds under scale 2 hands the real function -8 seconds rather
than the unscaled value; only the epoll_wait nonpositive-timeout case
behaves as the claim states. -/
theorem c3_sentinel_passthrough_bug :
    futex (cfgAll 2) FUTEX_WAIT none = none ∧
    futex (cfgAll 2) 1 none = some none ∧
    epoll_wait (cfgAll 2) 0 = 0 ∧
    epoll_wait (cfgAll 2) (-1) = -1 ∧
    (nanosleep (cfgAll 2) ⟨-4,0⟩ true (fun _ => (0, ⟨0,0⟩))).realReq = some ⟨-8,0⟩ := by
  refine ⟨?_, ?_, ?_, ?_, ?_⟩ <;>
    norm_num [futex, epoll_wait, nanosleep, cfgAll, allHooks, FUTEX_WAIT,
      timespec2double, double2timespec, cTrunc]

/-- Claim C4: evaluation at the failing input.  An enabled clock_gettime
on an unsupported clock id returns the raw errno value EINVAL = 22 as
its result, not the claimed -1-with-errno convention, leaving the
caller's buffer untouched and never consulting the real function;
clock_nanosleep, whose convention is to return the error number,
does return EINVAL as the claim states. -/
theorem c4_invalid_clock_bug :
    clock_gettime (cfgAll 2) 2 ⟨0,0⟩ (fun _ => (0, ⟨999,123⟩)) = (EINVAL, ⟨0,0⟩) ∧
    (clock_gettime (cfgAll 2) 2 ⟨0,0⟩ (fun _ => (0, ⟨999,123⟩))).1 ≠ -1 ∧
    clock_nanosleep (cfgAll 2) 7 0 ⟨1,0⟩ false ⟨0,0⟩ 0 ⟨0,0⟩ =
      ⟨false, none, EINVAL, none⟩ := by
  refine ⟨?_, ?_, ?_⟩ <;>
    norm_num [clock_gettime, clock_nanosleep, cfgAll, allHooks, CLOCK_REALTIME,
      CLOCK_MONOTONIC, EINVAL]

/-- Claim C5: evaluation at the failing input.  Bootstrap stores the
parsed scale without any validation: a TIMESCALER_SCALE string parsing
to 0 (which is also what atof returns on an unparsable string) or to a
negative value completes initialization with that unusable scale in
effect. -/
theorem c5_scale_not_validated :
    (timescaler_init none (some 0) none 0 0 0 0).initialized = true ∧
    (timescaler_init none (some 0) none 0 0 0 0).scale = 0 ∧
    (timescaler_init none (some (-3)) none 0 0 0 0).initialized = true ∧
    (timescaler_init none (some (-3)) none 0 0 0 0).scale = -3 := by
  refine ⟨?_, ?_, ?_, ?_⟩ <;> norm_num [timescaler_init, ts_config_static]

/-- Claim C6: the structured-to-continuous conversions round-trip
exactly, for every timespec with a normalized nanosecond field and every
timeval with a normalized microsecond field, negative seconds included. -/
theorem c6_conversion_roundtrip (t : Timespec) (v : Timeval)
    (h1 : 0 ≤ t.tv_nsec) (h2 : t.tv_nsec < 1000000000)
    (h3 : 0 ≤ v.tv_usec) (h4 : v.tv_usec < 1000000) :
    double2timespec (timespec2double t) = t ∧
    double2timeval (timeval2double v) = v := by
  obtain ⟨s, n⟩ := t
  obtain ⟨ws, wu⟩ := v
  simp only at h1 h2 h3 h4
  refine ⟨?_, ?_⟩
  · have hx1 : (0:ℚ) ≤ (n:ℚ)/1000000000 :=
      div_nonneg (by exact_mod_cast h1) (by norm_num)
    have hx2 : (n:ℚ)/1000000000 < 1 := by
      rw [div_lt_one (by norm_num)]
      exact_mod_cast h2
    have hf : ⌊(s:ℚ) + (n:ℚ)/1000000000⌋ = s := floor_add_small s _ hx1 hx2
    simp only [double2timespec, timespec2double, Timespec.mk.injEq]
    rw [hf]
    refine ⟨rfl, ?_⟩
    have he : ((s:ℚ) + (n:ℚ)/1000000000 - (s:ℚ)) * 1000000000 = ((n : Int) : ℚ) := by
      field_simp
      ring
    rw [he, cTrunc_intCast]
  · have hx1 : (0:ℚ) ≤ (wu:ℚ)/1000000 :=
      div_nonneg (by exact_mod_cast h3) (by norm_num)
    have hx2 : (wu:ℚ)/1000000 < 1 := by
      rw [div_lt_one (by norm_num)]
      exact_mod_cast h4
    have hf : ⌊(ws:ℚ) + (wu:ℚ)/1000000⌋ = ws := floor_add_small ws _ hx1 hx2
    simp only [double2timeval, timeval2double, Timeval.mk.injEq]
    rw [hf]
    refine ⟨rfl, ?_⟩
    have he : ((ws:ℚ) + (wu:ℚ)/1000000 - (ws:ℚ)) * 1000000 = ((wu : Int) : ℚ) := by
      field_simp
      ring
    rw [he, cTrunc_intCast]

/-- Witness for claim C6 at the boundary values: negative seconds with
the maximum sub-second fraction. -/
theorem c6_conversion_roundtrip_witness :
    (0:Int) ≤ 999999999 ∧ (999999999:Int) < 1000000000 ∧
    (0:Int) ≤ 999999 ∧ (999999:Int) < 1000000 ∧
    (double2timespec (timespec2double ⟨-5, 999999999⟩) = ⟨-5, 999999999⟩ ∧
     double2timeval (timeval2double ⟨-5, 999999⟩) = ⟨-5, 999999⟩) :=
  ⟨by norm_num, by norm_num, by norm_num, by norm_num,
   c6_conversion_roundtrip ⟨-5, 999999999⟩ ⟨-5, 999999⟩
     (by norm_num) (by norm_num) (by norm_num) (by norm_num)⟩

/-- Claim C7: for every positive scale and every pair of real readings
r1 at most r2, the instantaneous-read transform is monotone, the
difference of the virtual values is (r2 - r1) / scale, and the
structured values exposed after conversion are monotone as well. -/
theorem c7_monotone (a : Int) (s : ℚ) (r1 r2 : ℚ) (hs : 0 < s) (h : r1 ≤ r2) :
    virtualRead a s r1 ≤ virtualRead a s r2 ∧
    virtualRead a s r2 - virtualRead a s r1 = (r2 - r1) / s ∧
    timespec2double (double2timespec (virtualRead a s r1)) ≤
      timespec2double (double2timespec (virtualRead a s r2)) := by
  have hmono : virtualRead a s r1 ≤ virtualRead a s r2 := by
    unfold virtualRead
    have hd : (r1 - (a:ℚ)) / s ≤ (r2 - (a:ℚ)) / s :=
      (div_le_div_iff_of_pos_right hs).mpr (by linarith)
    linarith
  refine ⟨hmono, ?_, ?_⟩
  · unfold virtualRead
    have hns : s ≠ 0 := ne_of_gt hs
    field_simp
  · rw [timespec_resolution, timespec_resolution]
    have hfl : ⌊virtualRead a s r1 * 1000000000⌋ ≤ ⌊virtualRead a s r2 * 1000000000⌋ :=
      Int.floor_mono (by nlinarith)
    have hc : ((⌊virtualRead a s r1 * 1000000000⌋ : Int) : ℚ) ≤
        ((⌊virtualRead a s r2 * 1000000000⌋ : Int) : ℚ) := by exact_mod_cast hfl
    exact (div_le_div_iff_of_pos_right (by norm_num)).mpr hc

/-- Witness for claim C7: anchor 1000, scale 2, readings 1005 and 1010. -/
theorem c7_monotone_witness :
    (0:ℚ) < 2 ∧ (1005:ℚ) ≤ 1010 ∧
    (virtualRead 1000 2 1005 ≤ virtualRead 1000 2 1010 ∧
     virtualRead 1000 2 1010 - virtualRead 1000 2 1005 = (1010 - 1005) / 2 ∧
     timespec2double (double2timespec (virtualRead 1000 2 1005)) ≤
       timespec2double (double2timespec (virtualRead 1000 2 1010))) :=
  ⟨by norm_num, by norm_num, c7_monotone 1000 2 1005 1010 (by norm_num) (by norm_num)⟩

/-- Claim C8: an enabled absolute-deadline clock_nanosleep whose
deadline minus the real current reading of the same clock is at most
zero returns 0 immediately without invoking the real sleep function. -/
theorem c8_abstime_past_deadline (cfg : TsConfig) (clk : Int)
    (req now rem0 : Timespec) (rp : Bool) (rr : Int)
    (hh : cfg.hooks.clock_nanosleep = true)
    (hclk : clk = CLOCK_REALTIME ∨ clk = CLOCK_MONOTONIC)
    (hpast : timespec2double req - timespec2double now ≤ 0) :
    clock_nanosleep cfg clk TIMER_ABSTIME req rp now rr rem0 =
      ⟨false, none, 0, none⟩ := by
  unfold clock_nanosleep
  rw [hh]
  rcases hclk with h | h <;> subst h <;>
    simp [CLOCK_REALTIME, CLOCK_MONOTONIC, TIMER_ABSTIME, hpast]

/-- Witness for claim C8: deadline 5 seconds, real clock already at 10
seconds. -/
theorem c8_abstime_past_deadline_witness :
    (cfgAll 2).hooks.clock_nanosleep = true ∧
    (CLOCK_REALTIME = CLOCK_REALTIME ∨ CLOCK_REALTIME = CLOCK_MONOTONIC) ∧
    timespec2double ⟨5,0⟩ - timespec2double ⟨10,0⟩ ≤ 0 ∧
    clock_nanosleep (cfgAll 2) CLOCK_REALTIME TIMER_ABSTIME ⟨5,0⟩ true ⟨10,0⟩ (-1) ⟨9,9⟩ =
      ⟨false, none, 0, none⟩ :=
  ⟨rfl, Or.inl rfl, by norm_num [timespec2double],
   c8_abstime_past_deadline (cfgAll 2) CLOCK_REALTIME ⟨5,0⟩ ⟨10,0⟩ ⟨9,9⟩ true (-1)
     rfl (Or.inl rfl) (by norm_num [timespec2double])⟩

/-- Claim C9 counterexample: with no configuration environment variables
present, bootstrap leaves verbosity at 1, not at the claimed silent
level 0, so level-1 (ERROR) diagnostics are emitted. -/
theorem c9_counterexample :
    (timescaler_init none none none 0 0 0 0).verbosity ≠ 0 ∧
    timescaler_log_emits (timescaler_init none none none 0 0 0 0).verbosity 1 = true := by
  refine ⟨?_, ?_⟩ <;> norm_num [timescaler_init, ts_config_static, timescaler_log_emits]

/-- Claim C9 as amended: with no configuration environment variables
present, bootstrap leaves scale 1.0, verbosity 1 (ERROR, so error
diagnostics are emitted) and every catalog hook enabled. -/
theorem c9_defaults (t r m k : Int) :
    (timescaler_init none none none t r m k).scale = 1 ∧
    (timescaler_init none none none t r m k).verbosity = 1 ∧
    (timescaler_init none none none t r m k).hooks = allHooks ∧
    timescaler_log_emits (timescaler_init none none none t r m k).verbosity 1 = true := by
  refine ⟨?_, ?_, ?_, ?_⟩ <;> norm_num [timescaler_init, ts_config_static, timescaler_log_emits]

/-- Claim C10 counterexample: when the real times fails with
(clock_t)-1 and the real getitimer fails with -1, the return values are
passed through but the tms and itimerval output fields are still
divided by the scale (here scale 2 turns every 10 into 5, 8 into 4 and
6 into 3), so the buffers are not left unmodified as claimed. -/
theorem c10_counterexample :
    times (cfgAll 2) (-1) ⟨10,10,10,10⟩ = (-1, ⟨5,5,5,5⟩) ∧
    (times (cfgAll 2) (-1) ⟨10,10,10,10⟩).2 ≠ ⟨10,10,10,10⟩ ∧
    getitimer (cfgAll 2) (-1) ⟨⟨8,0⟩, ⟨6,0⟩⟩ = (-1, ⟨⟨4,0⟩, ⟨3,0⟩⟩) ∧
    (getitimer (cfgAll 2) (-1) ⟨⟨8,0⟩, ⟨6,0⟩⟩).2 ≠ ⟨⟨8,0⟩, ⟨6,0⟩⟩ := by
  refine ⟨?_, ?_, ?_, ?_⟩ <;>
    norm_num [times, getitimer, cfgAll, allHooks, cTrunc,
      timeval2double, double2timeval]

/-- Claim C10 as amended: when the real call fails, the return value
delivered to the caller is exactly the real function's own outcome, but
the tms and itimerval output fields are rescaled (divided by the scale)
unconditionally, failure or not. -/
theorem c10_error_return_passthrough (hk : TsHooks) (s : ℚ) (aT aR aM aK r : Int)
    (buf : Tms) (it : Itimerval) :
    times (mkConfig s aT aR aM aK { hk with times := true }) (-1) buf =
      (-1, ⟨cTrunc ((buf.tms_utime : ℚ) / s), cTrunc ((buf.tms_stime : ℚ) / s),
            cTrunc ((buf.tms_cutime : ℚ) / s), cTrunc ((buf.tms_cstime : ℚ) / s)⟩) ∧
    getitimer (mkConfig s aT aR aM aK { hk with getitimer := true }) r it =
      (r, ⟨double2timeval (timeval2double it.it_interval / s),
           double2timeval (timeval2double it.it_value / s)⟩) := by
  refine ⟨?_, ?_⟩ <;> simp [times, getitimer, mkConfig]

end Timescaler

